import Mathlib

/-
  Verification development for the pulumi-go-helmbase library (package
  `helmbase`, file `base.go`).  The development shallowly embeds the final
  version of the library found in the repository: the constants
  `FieldHelmStatusOutput` and `FieldHelmOptionsInput`, the argument
  structures `ReleaseTypeArgs` and `helmv3.RepositoryOptsArgs`, the
  defaulting engine `InitDefaults`, the field projection `To` together with
  its helpers `toStringPtr` and `toAssetOrArchiveArray`, and the
  construction orchestrator `Construct`.

  Modelling conventions:
  * Pulumi input interface values (`pulumi.StringInput`,
    `pulumi.BoolPtrInput`, ...) are nullable interface values in Go.  They
    are modelled as `Option` of the carried resolved value; `none` models a
    nil interface.  Unresolved asynchronous outputs are out of scope: the
    library only ever passes such values through opaquely.
  * A Go `map[string]interface{}` is modelled as an association list
    `ValueMap` with `Option ValueMap` where the Go map may be nil.  Go map
    assignment and deletion are modelled by `mapSet` and `mapDelete`;
    Go map equality is extensional (key/value sets), which the theorems
    express through `List.lookup`.
  * The `mapstructure` decode of the extra payload in `InitDefaults` is
    modelled by its outcome: `none` when the payload cannot be interpreted
    as a flat tagged structure (the Go code panics), `some src` when it
    decodes to the flat tagged key/value list `src`.  The decoder
    construction itself (`mapstructure.NewDecoder`) is called with a fixed,
    valid configuration and cannot fail, so its panic branch is dead code
    and is not modelled.
  * A Go panic is modelled by the `Except.error` alternative of
    `Except InitPanic`; the Go function has no error return value, so the
    error alternative is exclusively a hard abort.
  * The effectful host calls made by `Construct` (input hydration,
    component registration, child release creation, output registration)
    are modelled by oracle parameters carrying their outcomes, and the
    calls actually performed are recorded in a `Trace`.
-/

namespace Helmbase

/-- Model of a dynamically typed Go value (`interface` value) as stored in
the weakly typed `values` map.  The merge logic treats these opaquely. -/
inductive GoValue where
  | str (s : String)
  | int (n : Int)
  | bool (b : Bool)
  | null
deriving DecidableEq

/-- Model of a Go `map[string]interface\x7b\x7d` as an association list with
the first occurrence of a key authoritative. -/
abbrev ValueMap := List (String × GoValue)

/-- Go map assignment `m[k] = v`: replace the binding of `k` when present,
otherwise add a new binding. -/
def mapSet : ValueMap → String → GoValue → ValueMap
  | [], k, v => [(k, v)]
  | p :: rest, k, v => if p.1 = k then (k, v) :: rest else p :: mapSet rest k v

/-- Iterated Go map assignment: write every binding of `src` into `m`, in
order. This models `mapstructure` decoding a flat tagged structure into an
existing target map. -/
def mapSetAll (m : ValueMap) (src : ValueMap) : ValueMap :=
  src.foldl (fun acc p => mapSet acc p.1 p.2) m

/-- Go map deletion `delete(m, k)`: drop every binding of `k`. -/
def mapDelete : ValueMap → String → ValueMap
  | [], _ => []
  | p :: rest, k => if p.1 = k then mapDelete rest k else p :: mapDelete rest k

/-- Go map lookup `m[k]`: the first binding of `k`, if any. -/
def goLookup : ValueMap → String → Option GoValue
  | [], _ => none
  | p :: rest, k => if p.1 = k then some p.2 else goLookup rest k

/-- The value the last binding of `k` in `src` carries, if any.  When the
keys of `src` are distinct this agrees with `goLookup`. -/
def lookupLast (src : ValueMap) (k : String) : Option GoValue :=
  goLookup src.reverse k

/-- First-defined choice on optional values (`Option.orElse` spelled out). -/
def orFallback (a b : Option GoValue) : Option GoValue :=
  match a with
  | some v => some v
  | none => b

/-- Opaque model of `pulumi.AssetOrArchive`. -/
structure AssetOrArchive where
  path : String
deriving DecidableEq

namespace helmv3

/-- Model of `helmv3.RepositoryOptsArgs` from the pulumi-kubernetes SDK:
six nullable string inputs. -/
structure RepositoryOptsArgs where
  CaFile : Option String
  CertFile : Option String
  KeyFile : Option String
  Password : Option String
  Repo : Option String
  Username : Option String
deriving DecidableEq

/-- Opaque model of `helmv3.ReleaseStatus`; the library only passes this
value through, never inspects it. -/
structure ReleaseStatus where
  raw : Option GoValue
deriving DecidableEq

end helmv3

/-- `FieldHelmStatusOutput` from `base.go`. -/
def FieldHelmStatusOutput : String := "status"

/-- `FieldHelmOptionsInput` from `base.go`: the reserved key removed from
the `values` map. -/
def FieldHelmOptionsInput : String := "helmOptions"

/-- Model of `ReleaseTypeArgs` from `base.go` (the strongly typed argument
payload).  Interface-typed fields are `Option` of their resolved carrier,
`Values` is the nullable weakly typed map. -/
structure ReleaseTypeArgs where
  Atomic : Option Bool
  Chart : Option String
  CleanupOnFail : Option Bool
  CreateNamespace : Option Bool
  DependencyUpdate : Option Bool
  Description : Option String
  Devel : Option Bool
  DisableCRDHooks : Option Bool
  DisableOpenapiValidation : Option Bool
  DisableWebhooks : Option Bool
  ForceUpdate : Option Bool
  Keyring : Option String
  Lint : Option Bool
  Manifest : Option ValueMap
  MaxHistory : Option Int
  Name : Option String
  Namespace : Option String
  Postrender : Option String
  RecreatePods : Option Bool
  RenderSubchartNotes : Option Bool
  Replace : Option Bool
  RepositoryOpts : helmv3.RepositoryOptsArgs
  ResetValues : Option Bool
  ResourceNames : Option (List (String × List String))
  ReuseValues : Option Bool
  SkipAwait : Option Bool
  SkipCrds : Option Bool
  Status : helmv3.ReleaseStatus
  Timeout : Option Int
  ValueYamlFiles : List AssetOrArchive
  Values : Option ValueMap
  Verify : Option Bool
  Version : Option String
  WaitForJobs : Option Bool
deriving DecidableEq

/-- The Go zero value of `helmv3.RepositoryOptsArgs`. -/
def zeroRepositoryOpts : helmv3.RepositoryOptsArgs :=
  { CaFile := none, CertFile := none, KeyFile := none,
    Password := none, Repo := none, Username := none }

/-- The Go zero value of `helmv3.ReleaseStatus`. -/
def zeroReleaseStatus : helmv3.ReleaseStatus := { raw := none }

/-- The Go zero value of `ReleaseTypeArgs` (allocated by `Construct` when
the nested release args pointer is nil). -/
def zeroReleaseTypeArgs : ReleaseTypeArgs :=
  { Atomic := none, Chart := none, CleanupOnFail := none,
    CreateNamespace := none, DependencyUpdate := none, Description := none,
    Devel := none, DisableCRDHooks := none,
    DisableOpenapiValidation := none, DisableWebhooks := none,
    ForceUpdate := none, Keyring := none, Lint := none, Manifest := none,
    MaxHistory := none, Name := none, Namespace := none,
    Postrender := none, RecreatePods := none, RenderSubchartNotes := none,
    Replace := none, RepositoryOpts := zeroRepositoryOpts,
    ResetValues := none, ResourceNames := none, ReuseValues := none,
    SkipAwait := none, SkipCrds := none, Status := zeroReleaseStatus,
    Timeout := none, ValueYamlFiles := [], Values := none, Verify := none,
    Version := none, WaitForJobs := none }

/-- `toStringPtr` from `base.go`: convert a nullable Go string pointer to a
nullable string input (nil maps to nil). -/
def toStringPtr (p : Option String) : Option String :=
  match p with
  | none => none
  | some s => some s

/-- A panic raised by `InitDefaults`. -/
inductive InitPanic where
  | decodeFailed
deriving DecidableEq

/-- Model of `InitDefaults` from `base.go`.  `decoded` is the outcome of
the `mapstructure` decode of the `values` payload (see the header comment);
`Except.error` models the Go panic on a decode failure. -/
def InitDefaults (args : ReleaseTypeArgs) (chart repo : String)
    (decoded : Option ValueMap) : Except InitPanic ReleaseTypeArgs :=
  -- if args.Chart == nil: args.Chart = pulumi.String(chart)
  let a1 := if args.Chart = none then { args with Chart := some chart } else args
  -- if args.RepositoryOpts.Repo == nil: args.RepositoryOpts.Repo = toStringPtr(&repo)
  let a2 :=
    if a1.RepositoryOpts.Repo = none then
      { a1 with RepositoryOpts := { a1.RepositoryOpts with Repo := toStringPtr (some repo) } }
    else a1
  -- if args.Values == nil: args.Values = make(map[string]interface-value)
  let a3 := if a2.Values = none then { a2 with Values := some [] } else a2
  -- d.Decode(values): merge the decoded flat structure into args.Values,
  -- panicking when the payload cannot be decoded; then
  -- delete(args.Values, FieldHelmOptionsInput)
  match decoded with
  | none => Except.error InitPanic.decodeFailed
  | some src =>
      Except.ok { a3 with
        Values := some (mapDelete (mapSetAll (a3.Values.getD []) src) FieldHelmOptionsInput) }

/-- Lookup of a key in the (possibly nil) `Values` map of an args value. -/
def valuesLookup (a : ReleaseTypeArgs) (k : String) : Option GoValue :=
  goLookup (a.Values.getD []) k

/-- `toAssetOrArchiveArray` from `base.go`: the conversion loop is
commented out in the source (a known incomplete code path), so the
function always returns the empty array. -/
def toAssetOrArchiveArray (a : List AssetOrArchive) : List AssetOrArchive :=
  []

namespace helmv3

/-- Model of `helmv3.ReleaseArgs` from the pulumi-kubernetes SDK,
restricted to the fields the library populates.  `Values` is a
`pulumi.Map` (non-nullable, produced by `pulumi.ToMap`). -/
structure ReleaseArgs where
  Atomic : Option Bool
  Chart : Option String
  CleanupOnFail : Option Bool
  CreateNamespace : Option Bool
  DependencyUpdate : Option Bool
  Description : Option String
  Devel : Option Bool
  DisableCRDHooks : Option Bool
  DisableOpenapiValidation : Option Bool
  DisableWebhooks : Option Bool
  ForceUpdate : Option Bool
  Keyring : Option String
  Lint : Option Bool
  Manifest : Option ValueMap
  MaxHistory : Option Int
  Name : Option String
  Namespace : Option String
  Postrender : Option String
  RecreatePods : Option Bool
  RenderSubchartNotes : Option Bool
  Replace : Option Bool
  RepositoryOpts : RepositoryOptsArgs
  ResetValues : Option Bool
  ResourceNames : Option (List (String × List String))
  ReuseValues : Option Bool
  SkipAwait : Option Bool
  SkipCrds : Option Bool
  Timeout : Option Int
  ValueYamlFiles : List AssetOrArchive
  Values : ValueMap
  Verify : Option Bool
  Version : Option String
  WaitForJobs : Option Bool
deriving DecidableEq

end helmv3

namespace pulumi

/-- `pulumi.ToMap`: converts a (possibly nil) Go map into a `pulumi.Map`
with the same entries; a nil map yields an empty `pulumi.Map`. -/
def ToMap (m : Option ValueMap) : ValueMap :=
  m.getD []

end pulumi

/-- Model of `To` from `base.go`: the field-by-field projection of
`ReleaseTypeArgs` onto `helmv3.ReleaseArgs`. -/
def To (args : ReleaseTypeArgs) : helmv3.ReleaseArgs :=
  { Atomic := args.Atomic,
    Chart := args.Chart,
    CleanupOnFail := args.CleanupOnFail,
    CreateNamespace := args.CreateNamespace,
    DependencyUpdate := args.DependencyUpdate,
    Description := args.Description,
    Devel := args.Devel,
    DisableCRDHooks := args.DisableCRDHooks,
    DisableOpenapiValidation := args.DisableOpenapiValidation,
    DisableWebhooks := args.DisableWebhooks,
    ForceUpdate := args.ForceUpdate,
    Keyring := args.Keyring,
    Lint := args.Lint,
    Manifest := args.Manifest,
    MaxHistory := args.MaxHistory,
    Name := args.Name,
    Namespace := args.Namespace,
    Postrender := args.Postrender,
    RecreatePods := args.RecreatePods,
    RenderSubchartNotes := args.RenderSubchartNotes,
    Replace := args.Replace,
    RepositoryOpts := args.RepositoryOpts,
    ResetValues := args.ResetValues,
    ResourceNames := args.ResourceNames,
    ReuseValues := args.ReuseValues,
    SkipAwait := args.SkipAwait,
    SkipCrds := args.SkipCrds,
    Timeout := args.Timeout,
    ValueYamlFiles := toAssetOrArchiveArray args.ValueYamlFiles,
    Values := pulumi.ToMap args.Values,
    Verify := args.Verify,
    Version := args.Version,
    WaitForJobs := args.WaitForJobs }

/-- The `Chart` resource handle capability set: the type token accessor
`Type()` and the two default accessors.  `SetOutputs` is behavioural and
is recorded in the `Trace` instead. -/
structure Chart where
  typeToken : String
  defaultChartName : String
  defaultRepoURL : String
deriving DecidableEq

/-- Model of the `ReleaseTypeInput` argument handed to `Construct`:
`release` is the value behind the `R()` accessor (nil when the nested
release args pointer is nil) and `decoded` is the outcome of the
`mapstructure` decode of the payload itself (the payload is passed as the
`values` argument of `InitDefaults`). -/
structure ChartArgsModel where
  release : Option ReleaseTypeArgs
  decoded : Option ValueMap
deriving DecidableEq

/-- Model of `provider.ConstructResult`: a wrapper around the component. -/
structure ConstructResult where
  component : Chart
deriving DecidableEq

/-- The outcome of a `Construct` call: a result, a returned error message,
or a propagated panic from the defaulting engine. -/
inductive ConstructOutcome where
  | ok (res : ConstructResult)
  | err (msg : String)
  | panicked (p : InitPanic)
deriving DecidableEq

/-- One attempted `helmv3.NewRelease` call: the resource name, the
translated arguments, and the parent passed via `pulumi.Parent`. -/
structure ReleaseAttempt where
  resName : String
  args : helmv3.ReleaseArgs
  parent : Chart
deriving DecidableEq

/-- Record of the external calls a `Construct` invocation performs. -/
structure Trace where
  copyAttempts : Nat
  registerComponentAttempts : List (String × String)
  initDefaultsCalls : Nat
  releaseAttempts : List ReleaseAttempt
  setOutputsCalls : Nat
  outputRegistrationAttempts : List String
deriving DecidableEq

/-- The empty trace: no external call performed. -/
def Trace.empty : Trace :=
  { copyAttempts := 0, registerComponentAttempts := [],
    initDefaultsCalls := 0, releaseAttempts := [], setOutputsCalls := 0,
    outputRegistrationAttempts := [] }

/-- Model of `Construct` from `base.go`.  The outcomes of the four
effectful host calls (`inputs.CopyTo`, `ctx.RegisterComponentResource`,
`helmv3.NewRelease`, `ctx.RegisterResourceOutputs`) are oracle parameters;
the returned `Trace` records which calls were actually made. -/
def Construct (c : Chart) (typ name : String)
    (copyOutcome : Except String ChartArgsModel)
    (registerOutcome : Except String Unit)
    (releaseOutcome : Except String helmv3.ReleaseStatus)
    (registerOutputsOutcome : Except String Unit) :
    ConstructOutcome × Trace :=
  -- if et := c.Type(); typ != et: return nil, error
  if typ ≠ c.typeToken then
    (ConstructOutcome.err ("unknown resource type " ++ typ ++ "; expected " ++ c.typeToken),
     Trace.empty)
  else
    -- if err := inputs.CopyTo(args); err != nil: return nil, wrapped error
    let t1 : Trace := { Trace.empty with copyAttempts := 1 }
    match copyOutcome with
    | Except.error e => (ConstructOutcome.err ("setting args: " ++ e), t1)
    | Except.ok args =>
      -- if err := ctx.RegisterComponentResource(typ, name, c, opts); err != nil
      let t2 : Trace := { t1 with registerComponentAttempts := [(typ, name)] }
      match registerOutcome with
      | Except.error e => (ConstructOutcome.err e, t2)
      | Except.ok _ =>
        -- relArgs := args.R(); if *relArgs == nil: *relArgs = zero value
        let relArgs := args.release.getD zeroReleaseTypeArgs
        -- InitDefaults(*relArgs, c.DefaultChartName(), c.DefaultRepoURL(), args)
        let t3 : Trace := { t2 with initDefaultsCalls := 1 }
        match InitDefaults relArgs c.defaultChartName c.defaultRepoURL args.decoded with
        | Except.error p => (ConstructOutcome.panicked p, t3)
        | Except.ok relArgsFilled =>
          -- rel, err := helmv3.NewRelease(ctx, name+"-helm", To(*relArgs), pulumi.Parent(c))
          let t4 : Trace :=
            { t3 with releaseAttempts := [⟨name ++ "-helm", To relArgsFilled, c⟩] }
          match releaseOutcome with
          | Except.error e => (ConstructOutcome.err e, t4)
          | Except.ok _ =>
            -- c.SetOutputs(rel.Status)
            let t5 : Trace := { t4 with setOutputsCalls := 1 }
            -- ctx.RegisterResourceOutputs(c, map with FieldHelmStatusOutput entry)
            let t6 : Trace :=
              { t5 with outputRegistrationAttempts := [FieldHelmStatusOutput] }
            match registerOutputsOutcome with
            | Except.error e => (ConstructOutcome.err e, t6)
            | Except.ok _ => (ConstructOutcome.ok ⟨c⟩, t6)

/-! ### Lookup lemmas for the Go map operations -/

theorem orFallback_none_left (b : Option GoValue) : orFallback none b = b := rfl

theorem orFallback_none_right (a : Option GoValue) : orFallback a none = a := by
  cases a <;> rfl

theorem orFallback_assoc (a b c : Option GoValue) :
    orFallback (orFallback a b) c = orFallback a (orFallback b c) := by
  cases a <;> rfl

theorem orFallback_self_left (a b : Option GoValue) :
    orFallback a (orFallback a b) = orFallback a b := by
  cases a <;> rfl

theorem goLookup_mapSet (m : ValueMap) (k kq : String) (v : GoValue) :
    goLookup (mapSet m k v) kq = if kq = k then some v else goLookup m kq := by
  induction m with
  | nil =>
      by_cases h : kq = k
      · simp [mapSet, goLookup, h]
      · simp [mapSet, goLookup, h, Ne.symm h]
  | cons p rest ih =>
      obtain ⟨a, b⟩ := p
      by_cases hak : a = k
      · subst hak
        by_cases h : kq = a
        · subst h; simp [mapSet, goLookup]
        · simp [mapSet, goLookup, h, Ne.symm h]
      · by_cases h : kq = a
        · have hkk : ¬ kq = k := fun hc => hak (h.symm.trans hc)
          simp [mapSet, goLookup, hak, h.symm, hkk]
        · simp [mapSet, goLookup, hak, h, Ne.symm h, ih]

theorem goLookup_append (l1 l2 : ValueMap) (k : String) :
    goLookup (l1 ++ l2) k = orFallback (goLookup l1 k) (goLookup l2 k) := by
  induction l1 with
  | nil => simp [goLookup, orFallback]
  | cons p rest ih =>
      obtain ⟨a, b⟩ := p
      by_cases h : a = k <;> simp [goLookup, h, ih, orFallback]

theorem lookupLast_cons (p : String × GoValue) (rest : ValueMap) (k : String) :
    lookupLast (p :: rest) k
      = orFallback (lookupLast rest k) (if p.1 = k then some p.2 else none) := by
  obtain ⟨a, b⟩ := p
  by_cases h : a = k <;>
    simp [lookupLast, List.reverse_cons, goLookup_append, goLookup, h]

theorem goLookup_mapSetAll (src : ValueMap) (m : ValueMap) (k : String) :
    goLookup (mapSetAll m src) k
      = orFallback (lookupLast src k) (goLookup m k) := by
  induction src generalizing m with
  | nil => simp [mapSetAll, lookupLast, goLookup, orFallback]
  | cons p rest ih =>
      obtain ⟨a, b⟩ := p
      have step : mapSetAll m ((a, b) :: rest) = mapSetAll (mapSet m a b) rest := rfl
      rw [step, ih, goLookup_mapSet, lookupLast_cons, orFallback_assoc]
      by_cases h : a = k
      · simp [h, orFallback]
      · simp [h, Ne.symm h, orFallback_none_left]

theorem goLookup_mapDelete (m : ValueMap) (k kq : String) :
    goLookup (mapDelete m k) kq = if kq = k then none else goLookup m kq := by
  induction m with
  | nil => simp [mapDelete, goLookup]
  | cons p rest ih =>
      obtain ⟨a, b⟩ := p
      by_cases hak : a = k
      · subst hak
        by_cases h : kq = a
        · subst h; simp [mapDelete, ih]
        · simp [mapDelete, goLookup, h, Ne.symm h, ih]
      · by_cases h : kq = a
        · have hkk : ¬ kq = k := fun hc => hak (h.symm.trans hc)
          simp [mapDelete, goLookup, hak, h.symm, hkk]
        · simp [mapDelete, goLookup, hak, h, Ne.symm h, ih]

theorem goLookup_eq_none_of_not_mem (l : ValueMap) (k : String)
    (h : k ∉ l.map Prod.fst) : goLookup l k = none := by
  induction l with
  | nil => rfl
  | cons p rest ih =>
      obtain ⟨a, b⟩ := p
      simp only [List.map_cons, List.mem_cons, not_or] at h
      have hak : ¬ a = k := fun hc => h.1 hc.symm
      simp [goLookup, hak, ih h.2]

theorem lookupLast_eq_goLookup (src : ValueMap) (k : String)
    (h : (src.map Prod.fst).Nodup) : lookupLast src k = goLookup src k := by
  induction src with
  | nil => rfl
  | cons p rest ih =>
      obtain ⟨a, b⟩ := p
      simp only [List.map_cons, List.nodup_cons] at h
      rw [lookupLast_cons, ih h.2]
      by_cases hk : a = k
      · subst hk
        have hn : goLookup rest a = none :=
          goLookup_eq_none_of_not_mem rest a h.1
        simp [goLookup, hn, orFallback]
      · simp [goLookup, hk, orFallback_none_right]

/-! ### The normal form of a successful `InitDefaults` run -/

theorem initDefaults_some (args : ReleaseTypeArgs) (chart repo : String)
    (src : ValueMap) :
    InitDefaults args chart repo (some src) =
      Except.ok { args with
        Chart := if args.Chart = none then some chart else args.Chart,
        RepositoryOpts :=
          if args.RepositoryOpts.Repo = none
            then { args.RepositoryOpts with Repo := some repo }
            else args.RepositoryOpts,
        Values := some (mapDelete
          (mapSetAll (args.Values.getD []) src) FieldHelmOptionsInput) } := by
  unfold InitDefaults toStringPtr
  by_cases h1 : args.Chart = none <;>
    by_cases h2 : args.RepositoryOpts.Repo = none <;>
      by_cases h3 : args.Values = none <;>
        simp [h1, h2, h3]

/-! ### Claims about the defaulting engine -/

/-- Counterexample input for C1: the chart field holds an explicit empty
string value, which in Go is a non-nil `pulumi.StringInput` interface. -/
def chartEmptyStringArgs : ReleaseTypeArgs :=
  { zeroReleaseTypeArgs with Chart := some "" }

/-- C1 (counterexample): the claim reads an empty-string chart as unset and
hence expects `InitDefaults` to replace it with the default chart name, but
the code tests only for a nil interface: on an args value whose `Chart` is
the explicit empty string, `InitDefaults` leaves the empty string in place
instead of writing the default name `"mychart"`. -/
theorem initDefaults_empty_string_chart_kept :
    (InitDefaults chartEmptyStringArgs "mychart" "https://charts.example.org"
        (some [])).map (fun a => a.Chart) = Except.ok (some "")
    ∧ (some "" : Option String) ≠ some "mychart" := by
  constructor
  · rfl
  · decide

/-- C1 (amended): `InitDefaults` sets `args.Chart` to the default chart
name exactly when `args.Chart` is nil, and sets
`args.RepositoryOpts.Repo` to the default repo URL exactly when that field
is nil; a present value — including an explicit empty string — is never
overwritten. -/
theorem initDefaults_default_fill_nil_only (args : ReleaseTypeArgs)
    (chart repo : String) (src : ValueMap) :
    (InitDefaults args chart repo (some src)).map
        (fun a => (a.Chart, a.RepositoryOpts.Repo))
      = Except.ok
          ((if args.Chart = none then some chart else args.Chart),
           (if args.RepositoryOpts.Repo = none then some repo
            else args.RepositoryOpts.Repo)) := by
  rw [initDefaults_some]
  by_cases h2 : args.RepositoryOpts.Repo = none <;> simp [Except.map, h2]

/-- C2: after a successful `InitDefaults` run, every key the extra payload
decodes to (other than the reserved key) is present in `args.Values` with
its decoded value, overwriting any prior binding, and every key of the
original `args.Values` that the decode does not produce and that is not
the reserved key keeps its original value. -/
theorem initDefaults_merge_semantics (args : ReleaseTypeArgs)
    (chart repo : String) (src : ValueMap) (argsF : ReleaseTypeArgs)
    (k : String) (v : GoValue)
    (hnd : (src.map Prod.fst).Nodup)
    (h : InitDefaults args chart repo (some src) = Except.ok argsF)
    (hk : k ≠ FieldHelmOptionsInput) :
    (goLookup src k = some v → valuesLookup argsF k = some v)
    ∧ (goLookup src k = none → valuesLookup argsF k = valuesLookup args k) := by
  rw [initDefaults_some] at h
  simp only [Except.ok.injEq] at h
  subst h
  simp only [valuesLookup, Option.getD_some]
  rw [goLookup_mapDelete]
  simp only [hk, if_false, if_neg hk]
  rw [goLookup_mapSetAll, lookupLast_eq_goLookup src k hnd]
  constructor
  · intro hv; simp [hv, orFallback]
  · intro hv; simp [hv, orFallback]

/-- Concrete data for the merge-precedence example of the specification:
the prior values map binds a to 1 and b to 2, and the extra payload
decodes to b bound to 3 and c bound to 4. -/
def mergeExampleArgs : ReleaseTypeArgs :=
  { zeroReleaseTypeArgs with
      Values := some [("a", GoValue.int 1), ("b", GoValue.int 2)] }

/-- The decode outcome of the merge-precedence example payload. -/
def mergeExampleSrc : ValueMap := [("b", GoValue.int 3), ("c", GoValue.int 4)]

/-- The args value `InitDefaults` produces on the merge-precedence
example: a stays 1, b is overwritten to 3, c is added with 4. -/
def mergeExampleResult : ReleaseTypeArgs :=
  { zeroReleaseTypeArgs with
      Chart := some "mychart",
      RepositoryOpts :=
        { zeroRepositoryOpts with Repo := some "https://charts.example.org" },
      Values := some
        [("a", GoValue.int 1), ("b", GoValue.int 3), ("c", GoValue.int 4)] }

theorem initDefaults_merge_semantics_witness :
    valuesLookup mergeExampleResult "b" = some (GoValue.int 3) :=
  (initDefaults_merge_semantics mergeExampleArgs "mychart"
      "https://charts.example.org" mergeExampleSrc mergeExampleResult
      "b" (GoValue.int 3) (by decide) rfl (by decide)).1 rfl

/-- C3: after every `InitDefaults` run that returns normally, the reserved
key `FieldHelmOptionsInput` is absent from `args.Values`, whether or not
it occurred in the prior map or in the decoded payload. -/
theorem initDefaults_reserved_key_absent (args : ReleaseTypeArgs)
    (chart repo : String) (src : ValueMap) :
    (InitDefaults args chart repo (some src)).map
        (fun a => valuesLookup a FieldHelmOptionsInput) = Except.ok none := by
  rw [initDefaults_some]
  simp [Except.map, valuesLookup, goLookup_mapDelete]

/-- C4: running `InitDefaults` twice with the same chart, repo and decoded
payload leaves the args value equal to the result of a single run: the
chart field, the repository options, the values map (Go maps compare by
their key/value bindings) and every remaining field are unchanged by the
second run. -/
theorem initDefaults_idempotent (args : ReleaseTypeArgs) (chart repo : String)
    (src : ValueMap) (args1 args2 : ReleaseTypeArgs)
    (h1 : InitDefaults args chart repo (some src) = Except.ok args1)
    (h2 : InitDefaults args1 chart repo (some src) = Except.ok args2) :
    args2.Chart = args1.Chart
    ∧ args2.RepositoryOpts = args1.RepositoryOpts
    ∧ (∀ k, valuesLookup args2 k = valuesLookup args1 k)
    ∧ { args2 with
          Chart := none,
          RepositoryOpts := zeroRepositoryOpts,
          Values := none } = { args1 with
          Chart := none,
          RepositoryOpts := zeroRepositoryOpts,
          Values := none } := by
  rw [initDefaults_some] at h1
  simp only [Except.ok.injEq] at h1
  subst h1
  rw [initDefaults_some] at h2
  simp only [Except.ok.injEq] at h2
  subst h2
  refine ⟨?_, ?_, ?_, ?_⟩
  · by_cases hc : args.Chart = none <;> simp [hc]
  · by_cases hr : args.RepositoryOpts.Repo = none <;> simp [hr]
  · intro k
    by_cases hk : k = FieldHelmOptionsInput
    · simp [valuesLookup, goLookup_mapDelete, hk]
    · simp only [valuesLookup, Option.getD_some]
      rw [goLookup_mapDelete, goLookup_mapDelete]
      simp only [if_neg hk]
      rw [goLookup_mapSetAll, goLookup_mapDelete]
      simp only [if_neg hk]
      rw [goLookup_mapSetAll, orFallback_self_left]
  · rfl

/-- Args value produced by a single `InitDefaults` run on the zero args
value with chart c, repo r and an empty decoded payload. -/
def idempotentExampleArgs : ReleaseTypeArgs :=
  { zeroReleaseTypeArgs with
      Chart := some "c",
      RepositoryOpts := { zeroRepositoryOpts with Repo := some "r" },
      Values := some [] }

theorem initDefaults_idempotent_witness :
    idempotentExampleArgs.Chart = idempotentExampleArgs.Chart :=
  (initDefaults_idempotent zeroReleaseTypeArgs "c" "r" []
      idempotentExampleArgs idempotentExampleArgs rfl rfl).1

/-- C7: when the extra payload cannot be decoded as a flat tagged
structure, `InitDefaults` does not return normally — the failure is the
hard-abort alternative (the Go panic), never a normally returned args
value — while for every payload that decodes successfully the panic
branch is unreachable and the call returns normally. -/
theorem initDefaults_decode_failure_is_panic (args : ReleaseTypeArgs)
    (chart repo : String) (src : ValueMap) :
    InitDefaults args chart repo none = Except.error InitPanic.decodeFailed
    ∧ ∃ argsF, InitDefaults args chart repo (some src) = Except.ok argsF :=
  ⟨rfl, _, initDefaults_some args chart repo src⟩

/-! ### Claims about the construction orchestrator -/

theorem string_data_append (s t : String) : (s ++ t).data = s.data ++ t.data :=
  rfl

/-- C5: when the type token of the resource handle differs from the
expected token, `Construct` returns only an error whose message carries
both tokens, and performs no call at all: no input hydration, no
component registration, no defaulting, no child release creation, no
output setting and no output registration (the trace is empty). -/
theorem construct_type_mismatch (c : Chart) (typ name : String)
    (copyOutcome : Except String ChartArgsModel)
    (registerOutcome : Except String Unit)
    (releaseOutcome : Except String helmv3.ReleaseStatus)
    (registerOutputsOutcome : Except String Unit)
    (h : typ ≠ c.typeToken) :
    (Construct c typ name copyOutcome registerOutcome releaseOutcome
        registerOutputsOutcome)
      = (ConstructOutcome.err
          ("unknown resource type " ++ typ ++ "; expected " ++ c.typeToken),
         Trace.empty)
    ∧ typ.data <:+:
        ("unknown resource type " ++ typ ++ "; expected " ++ c.typeToken).data
    ∧ c.typeToken.data <:+:
        ("unknown resource type " ++ typ ++ "; expected " ++ c.typeToken).data := by
  refine ⟨?_, ?_, ?_⟩
  · simp [Construct, h]
  · exact ⟨"unknown resource type ".data, ("; expected " ++ c.typeToken).data,
      by simp [string_data_append, List.append_assoc]⟩
  · exact ⟨("unknown resource type " ++ typ ++ "; expected ").data, [],
      by simp [string_data_append, List.append_assoc]⟩

/-- The resource handle of the type-mismatch example: its token is
foo:baz while Construct is invoked with expected token foo:bar. -/
def mismatchChart : Chart :=
  { typeToken := "foo:baz", defaultChartName := "redis",
    defaultRepoURL := "https://charts.example.org" }

theorem construct_type_mismatch_witness :
    (Construct mismatchChart "foo:bar" "test" (Except.ok ⟨none, some []⟩)
        (Except.ok ()) (Except.ok zeroReleaseStatus) (Except.ok ()))
      = (ConstructOutcome.err "unknown resource type foo:bar; expected foo:baz",
         Trace.empty) :=
  (construct_type_mismatch mismatchChart "foo:bar" "test"
      (Except.ok ⟨none, some []⟩) (Except.ok ()) (Except.ok zeroReleaseStatus)
      (Except.ok ()) (by decide)).1

/-- C6: when the type check passes but copying the raw input bag onto the
typed args fails, `Construct` returns only the copy error wrapped with the
context `setting args`, attempts no parent component registration, and
creates no child resource. -/
theorem construct_copy_failure (c : Chart) (typ name e : String)
    (registerOutcome : Except String Unit)
    (releaseOutcome : Except String helmv3.ReleaseStatus)
    (registerOutputsOutcome : Except String Unit)
    (h : typ = c.typeToken) :
    (Construct c typ name (Except.error e) registerOutcome releaseOutcome
        registerOutputsOutcome).1
      = ConstructOutcome.err ("setting args: " ++ e)
    ∧ (Construct c typ name (Except.error e) registerOutcome releaseOutcome
        registerOutputsOutcome).2.registerComponentAttempts = []
    ∧ (Construct c typ name (Except.error e) registerOutcome releaseOutcome
        registerOutputsOutcome).2.releaseAttempts = [] := by
  subst h
  refine ⟨?_, ?_, ?_⟩ <;> simp [Construct, Trace.empty]

/-- The resource handle of the hydration-failure example. -/
def copyFailChart : Chart :=
  { typeToken := "t", defaultChartName := "c", defaultRepoURL := "r" }

theorem construct_copy_failure_witness :
    (Construct copyFailChart "t" "n" (Except.error "boom") (Except.ok ())
        (Except.ok zeroReleaseStatus) (Except.ok ())).1
      = ConstructOutcome.err "setting args: boom" :=
  (construct_copy_failure copyFailChart "t" "n" "boom" (Except.ok ())
      (Except.ok zeroReleaseStatus) (Except.ok ()) rfl).1

/-- C8: on a successful `Construct` invocation, exactly one child Helm
Release is created, its name is the instance name with -helm appended and
it is parented to the resource handle; when the child creation fails the
error is returned as is, the single creation attempt is not retried, and
no output is set or registered. -/
theorem construct_creates_single_child (c : Chart) (typ name : String)
    (argsIn : ChartArgsModel) (src : ValueMap)
    (st : helmv3.ReleaseStatus) (e : String)
    (registerOutputsOutcome : Except String Unit)
    (ht : typ = c.typeToken) (hd : argsIn.decoded = some src) :
    (∃ ra,
      (Construct c typ name (Except.ok argsIn) (Except.ok ()) (Except.ok st)
          (Except.ok ())).1 = ConstructOutcome.ok ⟨c⟩
      ∧ (Construct c typ name (Except.ok argsIn) (Except.ok ()) (Except.ok st)
          (Except.ok ())).2.releaseAttempts = [⟨name ++ "-helm", ra, c⟩])
    ∧ ((Construct c typ name (Except.ok argsIn) (Except.ok ()) (Except.error e)
          registerOutputsOutcome).1 = ConstructOutcome.err e
      ∧ (∃ ra,
          (Construct c typ name (Except.ok argsIn) (Except.ok ())
              (Except.error e) registerOutputsOutcome).2.releaseAttempts
            = [⟨name ++ "-helm", ra, c⟩])
      ∧ (Construct c typ name (Except.ok argsIn) (Except.ok ()) (Except.error e)
          registerOutputsOutcome).2.setOutputsCalls = 0
      ∧ (Construct c typ name (Except.ok argsIn) (Except.ok ()) (Except.error e)
          registerOutputsOutcome).2.outputRegistrationAttempts = []) := by
  subst ht
  obtain ⟨rel, hrel⟩ :
      ∃ rel, InitDefaults (argsIn.release.getD zeroReleaseTypeArgs)
        c.defaultChartName c.defaultRepoURL argsIn.decoded = Except.ok rel := by
    rw [hd]; exact ⟨_, initDefaults_some _ _ _ _⟩
  refine ⟨⟨To rel, ?_, ?_⟩, ?_, ⟨To rel, ?_⟩, ?_, ?_⟩ <;>
    simp [Construct, hrel, Trace.empty]

/-- The resource handle of the child-creation example. -/
def childChart : Chart :=
  { typeToken := "t", defaultChartName := "c", defaultRepoURL := "r" }

theorem construct_creates_single_child_witness :
    (Construct childChart "t" "n" (Except.ok ⟨none, some []⟩) (Except.ok ())
        (Except.error "boom") (Except.ok ())).1
      = ConstructOutcome.err "boom" :=
  (construct_creates_single_child childChart "t" "n" ⟨none, some []⟩ []
      zeroReleaseStatus "boom" (Except.ok ()) rfl rfl).2.1

/-! ### Claims about the field projection -/

/-- C9: the translation `To` always produces a release args value whose
`ValueYamlFiles` field is empty, whatever the input list of file blobs:
the helper `toAssetOrArchiveArray` silently drops it. -/
theorem to_drops_valueYamlFiles (args : ReleaseTypeArgs) :
    (To args).ValueYamlFiles = []
    ∧ toAssetOrArchiveArray args.ValueYamlFiles = [] :=
  ⟨rfl, rfl⟩

/-- C10: the translation `To` passes every field other than
`ValueYamlFiles` and `Values` through unchanged into the corresponding
`helmv3.ReleaseArgs` field, and maps `Values` through `pulumi.ToMap`;
being a pure projection it leaves its argument untouched. -/
theorem to_field_projection (args : ReleaseTypeArgs) :
    (To args).Atomic = args.Atomic
    ∧ (To args).Chart = args.Chart
    ∧ (To args).CleanupOnFail = args.CleanupOnFail
    ∧ (To args).CreateNamespace = args.CreateNamespace
    ∧ (To args).DependencyUpdate = args.DependencyUpdate
    ∧ (To args).Description = args.Description
    ∧ (To args).Devel = args.Devel
    ∧ (To args).DisableCRDHooks = args.DisableCRDHooks
    ∧ (To args).DisableOpenapiValidation = args.DisableOpenapiValidation
    ∧ (To args).DisableWebhooks = args.DisableWebhooks
    ∧ (To args).ForceUpdate = args.ForceUpdate
    ∧ (To args).Keyring = args.Keyring
    ∧ (To args).Lint = args.Lint
    ∧ (To args).Manifest = args.Manifest
    ∧ (To args).MaxHistory = args.MaxHistory
    ∧ (To args).Name = args.Name
    ∧ (To args).Namespace = args.Namespace
    ∧ (To args).Postrender = args.Postrender
    ∧ (To args).RecreatePods = args.RecreatePods
    ∧ (To args).RenderSubchartNotes = args.RenderSubchartNotes
    ∧ (To args).Replace = args.Replace
    ∧ (To args).RepositoryOpts = args.RepositoryOpts
    ∧ (To args).ResetValues = args.ResetValues
    ∧ (To args).ResourceNames = args.ResourceNames
    ∧ (To args).ReuseValues = args.ReuseValues
    ∧ (To args).SkipAwait = args.SkipAwait
    ∧ (To args).SkipCrds = args.SkipCrds
    ∧ (To args).Timeout = args.Timeout
    ∧ (To args).Verify = args.Verify
    ∧ (To args).Version = args.Version
    ∧ (To args).WaitForJobs = args.WaitForJobs
    ∧ (To args).Values = pulumi.ToMap args.Values :=
  ⟨rfl, rfl, rfl, rfl, rfl, rfl, rfl, rfl, rfl, rfl, rfl, rfl, rfl, rfl, rfl,
   rfl, rfl, rfl, rfl, rfl, rfl, rfl, rfl, rfl, rfl, rfl, rfl, rfl, rfl, rfl,
   rfl, rfl⟩

end Helmbase
